import Mathlib

/-!
# Verification of `rust-google-sheet` (`src/main.rs`)

A shallow embedding, in Lean 4, of the pure decision logic of the Rust
program `src/main.rs` of the `rust-google-sheet` repository, together with
theorems settling the specification's claims about it.

Conventions of the embedding:
* JSON cell values (`serde_json::Value` elements of a row) are modelled by
  `Cell`: a string cell carries its string; every non-string JSON value
  (null / bool / number / array / object) is collapsed to `Cell.other`,
  because the only operation the program applies to a cell is
  `Value::as_str`, which distinguishes exactly strings from non-strings.
* Machine integers (`usize`, `u64`) are modelled by `Nat`; the one place
  where wrap-around matters (`row_index - 1` in
  `delete_row_from_google_sheet`) is modelled explicitly as a panic on
  underflow, which is Rust's debug-build semantics (a comment notes the
  release-build wrap).
* Fallible / effectful code is modelled by explicit outcome types: a Rust
  panic (`unwrap` on `None`, out-of-bounds index, integer underflow) is an
  explicit `panicked` constructor, a `?`-propagated error is an explicit
  error constructor, and network / filesystem interaction is an explicit
  field of the outcome.
-/

namespace RustGoogleSheet

/-- A JSON cell value as the program observes it. `main.rs` only ever calls
`Value::as_str` on a cell (line 93-94), so the model keeps the payload of
string cells and collapses every non-string JSON value to `other`. -/
inductive Cell
  | str (s : String)
  | other
deriving DecidableEq, Repr

/-- Rust `cell.as_str()`: `Some` of the string for a JSON string, `None`
for every other JSON value. -/
def Cell.as_str : Cell → Option String
  | .str s => some s
  | .other => none

/-- A row of the sheet: the program reads each row as a JSON array of
cells. -/
abbrev Row := List Cell

/-- One column-equality test of `read_google_sheet` (`main.rs` lines 93-94):
`row.get(column_index).map_or(false, |cell| cell.as_str() == Some(filter_value))`. -/
def matchCol (row : Row) (column_index : Nat) (filter_value : String) : Bool :=
  match row.get? column_index with
  | some cell => cell.as_str == some filter_value
  | none => false

/-- The conjunction of the two column tests applied to one data row
(`main.rs` line 96: `match_col1 && match_col2`). -/
def rowMatch (i1 : Nat) (v1 : String) (i2 : Nat) (v2 : String) (row : Row) : Bool :=
  matchCol row i1 v1 && matchCol row i2 v2

/-- One iteration of the filtering loop of `read_google_sheet`
(`main.rs` lines 92-101): on a match, push the row onto `filtered_data`
and increment `count`; otherwise leave both unchanged. -/
def filterStep (i1 : Nat) (v1 : String) (i2 : Nat) (v2 : String)
    (acc : List Row × Nat) (row : Row) : List Row × Nat :=
  if rowMatch i1 v1 i2 v2 row then (acc.1 ++ [row], acc.2 + 1) else acc

/-- The whole filtering loop of `read_google_sheet`: iterate over
`values.iter().skip(1)` starting from an empty `filtered_data` and
`count = 0`, returning the final `(filtered_data, count)` pair. -/
def filterRows (values : List Row) (i1 : Nat) (v1 : String) (i2 : Nat) (v2 : String) :
    List Row × Nat :=
  (values.drop 1).foldl (filterStep i1 v1 i2 v2) ([], 0)

/-- A column predicate exactly as the spec's data model states it:
`{column_index: non-negative integer, expected_value: string}`. -/
structure Predicate where
  column_index : Nat
  expected_value : String
deriving DecidableEq, Repr

/-- Modelled from the spec's words (for comparison with the code's
`matchCol`): a row satisfies a predicate iff the cell at `column_index`
exists and equals the expected value exactly (case-sensitive, no type
coercion — a non-string cell never equals a string). -/
def specPredHolds (row : Row) (p : Predicate) : Bool :=
  match row.get? p.column_index with
  | some cell => cell == Cell.str p.expected_value
  | none => false

/-- Modelled from the spec's words: a row matches a predicate set iff it
satisfies every predicate (logical AND). -/
def specRowMatch (ps : List Predicate) (row : Row) : Bool :=
  ps.all (specPredHolds row)

theorem matchCol_eq_spec (row : Row) (i : Nat) (v : String) :
    matchCol row i v = specPredHolds row ⟨i, v⟩ := by
  unfold matchCol specPredHolds
  cases h : row.get? i with
  | none => rfl
  | some cell =>
    cases cell with
    | str s => simp [Cell.as_str]
    | other => simp [Cell.as_str]

theorem rowMatch_eq_spec (i1 : Nat) (v1 : String) (i2 : Nat) (v2 : String) (row : Row) :
    rowMatch i1 v1 i2 v2 row = specRowMatch [⟨i1, v1⟩, ⟨i2, v2⟩] row := by
  simp [rowMatch, specRowMatch, matchCol_eq_spec]

theorem foldl_filterStep (i1 : Nat) (v1 : String) (i2 : Nat) (v2 : String) :
    ∀ (l : List Row) (acc : List Row) (c : Nat),
      l.foldl (filterStep i1 v1 i2 v2) (acc, c) =
        (acc ++ l.filter (rowMatch i1 v1 i2 v2),
         c + (l.filter (rowMatch i1 v1 i2 v2)).length) := by
  intro l
  induction l with
  | nil => intro acc c; simp
  | cons hd tl ih =>
    intro acc c
    by_cases h : rowMatch i1 v1 i2 v2 hd
    · simp [filterStep, h, ih, List.filter_cons]
      omega
    · simp [filterStep, h, ih, List.filter_cons]

/-- The loop's `filtered_data` is exactly `List.filter` of the data rows,
and its `count` is that list's length. -/
theorem filterRows_eq (values : List Row) (i1 : Nat) (v1 : String) (i2 : Nat) (v2 : String) :
    filterRows values i1 v1 i2 v2 =
      ((values.drop 1).filter (rowMatch i1 v1 i2 v2),
       ((values.drop 1).filter (rowMatch i1 v1 i2 v2)).length) := by
  unfold filterRows
  rw [foldl_filterStep]
  simp

/-! ## Token acquisition (`get_google_access_token`, `main.rs` lines 21-55) -/

/-- The JWT claim set of `main.rs` lines 11-18. -/
structure Claims where
  iss : String
  scope : String
  aud : String
  exp : Nat
  iat : Nat
deriving DecidableEq, Repr

/-- Building the claim set from the current clock reading (`main.rs`
lines 27-34): a fresh value per call, with `exp = now + 3600` and
`iat = now` and the fixed scope / audience strings. -/
def mkClaims (client_email : String) (now : Nat) : Claims :=
  { iss := client_email
    scope := "https://www.googleapis.com/auth/spreadsheets"
    aud := "https://oauth2.googleapis.com/token"
    exp := now + 3600
    iat := now }

/-- Outcome of the token-endpoint network exchange, as the program can
observe it: the send / JSON-decode chain fails (propagated with `?`), or a
JSON body arrives whose `access_token` field is a string or is absent /
non-string (`response["access_token"].as_str()` on the body). -/
inductive NetResult
  | fail
  | ok (access_token : Option String)
deriving DecidableEq, Repr

/-- The result of one run of `get_google_access_token`. `keyError` is the
`?`-propagated error of `EncodingKey::from_rsa_pem` / `encode` (line 36-40);
`transportError` is the `?`-propagated error of the POST / JSON decode
(lines 43-52); `panicked` is the `unwrap()` on line 54 aborting the
process. -/
inductive TokenResult
  | keyError
  | transportError
  | panicked
  | token (t : String)
deriving DecidableEq, Repr

/-- What one call of `get_google_access_token` did: its result, whether the
POST to the token endpoint was issued, and the claim set it built. -/
structure TokenRun where
  result : TokenResult
  networkCalled : Bool
  claims : Claims
deriving DecidableEq, Repr

/-- Shallow embedding of `get_google_access_token` (`main.rs` lines 21-55).
Inputs stand for the program's environment: `client_email` the value of
`SERVICE_ACCOUNT_EMAIL`; `jwtResult` the outcome of
`encode(&Header::new(RS256), &claims, &EncodingKey::from_rsa_pem(...))` —
`none` when the private key fails to parse as RSA PEM (or signing fails),
`some jwt` on success; `now` the clock reading; `net` the token endpoint's
response. The source builds the claims (lines 28-34), then signs (lines
36-40, `?` on failure — before `Client::new()` on line 42), then POSTs and
decodes (lines 43-52, `?` on failure), then runs
`response["access_token"].as_str().unwrap()` (line 54), which panics when
the field is absent or not a string. -/
def get_google_access_token (client_email : String) (jwtResult : Option String)
    (now : Nat) (net : NetResult) : TokenRun :=
  let claims := mkClaims client_email now
  match jwtResult with
  | none => { result := .keyError, networkCalled := false, claims := claims }
  | some _jwt =>
    match net with
    | .fail => { result := .transportError, networkCalled := true, claims := claims }
    | .ok none => { result := .panicked, networkCalled := true, claims := claims }
    | .ok (some t) => { result := .token t, networkCalled := true, claims := claims }

/-! ## Row deletion (`delete_row_from_google_sheet`, `main.rs` lines 184-221) -/

/-- The `deleteDimension` row range of the batch-update request body
(`main.rs` lines 199-205). -/
structure DeleteRange where
  startIndex : Nat
  endIndex : Nat
deriving DecidableEq, Repr

/-- What one call of `delete_row_from_google_sheet` does with a given
`row_index`: panic, or send the batch-update request with the given range.
(The source has no error return before the network call: its only fallible
steps are env-var lookup and the HTTP call itself.) -/
inductive DeleteOutcome
  | panicked
  | sent (range : DeleteRange)
deriving DecidableEq, Repr

/-- Shallow embedding of the request construction of
`delete_row_from_google_sheet` (`main.rs` lines 196-217): the body carries
`startIndex = row_index - 1`, `endIndex = row_index`. `row_index` is
`usize`; at `row_index = 0` the subtraction `row_index - 1` underflows,
which panics in a debug build (in a release build it wraps to
`2^64 - 1` and the request is sent with that start index — under either
semantics no typed error is returned and no precondition check exists). -/
def delete_row_from_google_sheet (row_index : Nat) : DeleteOutcome :=
  if row_index = 0 then .panicked
  else .sent { startIndex := row_index - 1, endIndex := row_index }

/-! ## Sheet reading (`read_google_sheet`, `main.rs` lines 58-118) -/

/-- The JSON document written to `output.json` (`main.rs` lines 104-111):
`{header, filtered_data, count}`. -/
structure OutputDoc where
  header : Row
  filtered_data : List Row
  count : Nat
deriving DecidableEq, Repr

/-- The outcome of one run of `read_google_sheet`'s response processing
(after the GET succeeded and decoded): the process panics, or the function
returns `Ok(())` — `header` is the header row it bound and printed (if
any), and `fs` is the content of `output.json` after the run. -/
inductive ReadOutcome
  | panicked
  | ok (header : Option Row) (fs : Option OutputDoc)
deriving DecidableEq, Repr

/-- Shallow embedding of the response processing of `read_google_sheet`
(`main.rs` lines 80-117). `resp` is `response["values"].as_array()`:
`none` when the response has no `values` array. `prev` is the content of
`output.json` before the run (`none` if absent). When `values` is present,
line 90 (`&values[0]`) panics on an empty array; otherwise the loop of
lines 92-101 filters rows 1.. and lines 104-111 create (truncate) and
write `output.json` with `{header, filtered_data, count}`. When `values`
is absent, the function prints `No data found!` and returns `Ok(())`
without touching the file. -/
def read_google_sheet (resp : Option (List Row)) (i1 : Nat) (v1 : String)
    (i2 : Nat) (v2 : String) (prev : Option OutputDoc) : ReadOutcome :=
  match resp with
  | none => .ok none prev
  | some [] => .panicked
  | some (h :: t) =>
    let fd := filterRows (h :: t) i1 v1 i2 v2
    .ok (some h) (some { header := h, filtered_data := fd.1, count := fd.2 })

/-! ## Helper lemmas -/

theorem matchCol_short (row : Row) (i : Nat) (v : String) (h : row.length ≤ i) :
    matchCol row i v = false := by
  unfold matchCol
  rw [List.get?_eq_none.mpr h]

theorem get_token_claims (client_email : String) (jwtResult : Option String)
    (now : Nat) (net : NetResult) :
    (get_google_access_token client_email jwtResult now net).claims =
      mkClaims client_email now := by
  cases jwtResult with
  | none => rfl
  | some jwt =>
    cases net with
    | fail => rfl
    | ok a => cases a <;> rfl

/-- The spec's worked scenario table (spec §8): header plus three data
rows. -/
def demoTable : List Row :=
  [[Cell.str "Name", Cell.str "Channel", Cell.str "Refunded"],
   [Cell.str "A", Cell.str "DEBENHAMS", Cell.str "FALSE"],
   [Cell.str "B", Cell.str "OTHER", Cell.str "FALSE"],
   [Cell.str "C", Cell.str "DEBENHAMS", Cell.str "TRUE"]]

example :
    filterRows demoTable 1 "DEBENHAMS" 2 "FALSE" =
      ([[Cell.str "A", Cell.str "DEBENHAMS", Cell.str "FALSE"]], 1) := by decide

/-! ## Claim theorems -/

/-- Claim C1: for every table and every two-column-equality predicate set,
the filter step returns exactly the data rows (in original order, no
reordering or deduplication — it is literally `List.filter` over the data
rows) in which, for each predicate, the cell at its column index exists
and equals the expected value exactly; and a row with fewer cells than a
referenced column index never matches. -/
theorem c1_filter_correct (values : List Row) (i1 : Nat) (v1 : String)
    (i2 : Nat) (v2 : String) :
    (filterRows values i1 v1 i2 v2).1 =
      (values.drop 1).filter (specRowMatch [⟨i1, v1⟩, ⟨i2, v2⟩]) ∧
    (∀ row : Row, row.length ≤ i1 → rowMatch i1 v1 i2 v2 row = false) := by
  constructor
  · rw [filterRows_eq]
    exact List.filter_congr fun row _ => rowMatch_eq_spec i1 v1 i2 v2 row
  · intro row hlen
    simp [rowMatch, matchCol_short row i1 v1 hlen]

/-- Witness for C1 at the spec's scenario table, discharging the short-row
hypothesis at the one-cell row `["A"]` with column index 1. -/
theorem c1_filter_correct_witness :
    (filterRows demoTable 1 "DEBENHAMS" 2 "FALSE").1 =
      (demoTable.drop 1).filter (specRowMatch [⟨1, "DEBENHAMS"⟩, ⟨2, "FALSE"⟩]) ∧
    rowMatch 1 "DEBENHAMS" 2 "FALSE" [Cell.str "A"] = false :=
  ⟨(c1_filter_correct demoTable 1 "DEBENHAMS" 2 "FALSE").1,
   (c1_filter_correct demoTable 1 "DEBENHAMS" 2 "FALSE").2 [Cell.str "A"] (by decide)⟩

/-- Claim C2 (settled as a code bug): the range translation holds for
`row_index = n + 1 ≥ 1` (`startIndex = n`, `endIndex = n + 1`), but at
`row_index = 0` the code performs the unchecked subtraction `0 - 1` on
`usize` — no `WriteError::InvalidIndex` / precondition error exists in the
source: a debug build panics, and a release build wraps and issues the
network call. -/
theorem c2_delete_translation :
    delete_row_from_google_sheet 0 = DeleteOutcome.panicked ∧
    ∀ n : Nat, delete_row_from_google_sheet (n + 1) =
      DeleteOutcome.sent { startIndex := n, endIndex := n + 1 } := by
  refine ⟨rfl, fun n => ?_⟩
  simp [delete_row_from_google_sheet]

/-- Claim C3 (settled as a code bug): when the token endpoint's body lacks
an `access_token` string, `get_google_access_token` does not return a typed
error — line 54's `response["access_token"].as_str().unwrap()` panics. -/
theorem c3_missing_token_panics (client_email jwt : String) (now : Nat) :
    (get_google_access_token client_email (some jwt) now
        (NetResult.ok none)).result = TokenResult.panicked := rfl

/-- Claim C4: a read response with no `values` field is handled as success
— the function returns `Ok(())` (never panics, propagates no error through
this branch), having bound no header row and iterated no data rows. -/
theorem c4_missing_values_success (i1 : Nat) (v1 : String) (i2 : Nat)
    (v2 : String) (prev : Option OutputDoc) :
    read_google_sheet none i1 v1 i2 v2 prev = ReadOutcome.ok none prev ∧
    read_google_sheet none i1 v1 i2 v2 prev ≠ ReadOutcome.panicked :=
  ⟨rfl, nofun⟩

/-- Claim C5: every acquisition builds its claim set fresh from the clock
reading it was given, with `exp = iat + 3600` (hence `iat < exp`), and two
sequential acquisitions whose clock readings are ordered `t1 ≤ t2` produce
non-decreasing `iat`, each recomputing `exp = iat + 3600`. -/
theorem c5_token_freshness (client_email : String) (j1 j2 : Option String)
    (net1 net2 : NetResult) (t1 t2 : Nat) (h : t1 ≤ t2) :
    (get_google_access_token client_email j1 t1 net1).claims.exp =
      (get_google_access_token client_email j1 t1 net1).claims.iat + 3600 ∧
    (get_google_access_token client_email j1 t1 net1).claims.iat <
      (get_google_access_token client_email j1 t1 net1).claims.exp ∧
    (get_google_access_token client_email j2 t2 net2).claims.exp =
      (get_google_access_token client_email j2 t2 net2).claims.iat + 3600 ∧
    (get_google_access_token client_email j1 t1 net1).claims.iat ≤
      (get_google_access_token client_email j2 t2 net2).claims.iat := by
  simp [get_token_claims, mkClaims]
  omega

/-- Witness for C5 at clock readings 5 and 7. -/
theorem c5_token_freshness_witness :
    (get_google_access_token "svc@example.com" none 5 NetResult.fail).claims.exp =
      (get_google_access_token "svc@example.com" none 5 NetResult.fail).claims.iat + 3600 ∧
    (get_google_access_token "svc@example.com" none 5 NetResult.fail).claims.iat <
      (get_google_access_token "svc@example.com" none 5 NetResult.fail).claims.exp ∧
    (get_google_access_token "svc@example.com" none 7 NetResult.fail).claims.exp =
      (get_google_access_token "svc@example.com" none 7 NetResult.fail).claims.iat + 3600 ∧
    (get_google_access_token "svc@example.com" none 5 NetResult.fail).claims.iat ≤
      (get_google_access_token "svc@example.com" none 7 NetResult.fail).claims.iat :=
  c5_token_freshness "svc@example.com" none none NetResult.fail NetResult.fail 5 7
    (by decide)

/-- Counterexample to Claim C6 as stated: with `values = [["A"], ["A"]]`
and both predicates `(0, "A")`, the first row of the response — the value
`["A"]` — is present in the matched rows (a data row equal in value to the
header matched). -/
theorem c6_header_counterexample :
    [[Cell.str "A"], [Cell.str "A"]].get? 0 = some [Cell.str "A"] ∧
    [Cell.str "A"] ∈ (filterRows [[Cell.str "A"], [Cell.str "A"]] 0 "A" 0 "A").1 := by
  decide

/-- Claim C6 as amended: the matched rows are drawn exclusively from the
data rows — the filter output is a sublist of `values` with the first row
dropped, so the header position never contributes a matched row (though a
data row equal in value to the header may appear). -/
theorem c6_matched_rows_from_data (values : List Row) (i1 : Nat) (v1 : String)
    (i2 : Nat) (v2 : String) :
    List.Sublist (filterRows values i1 v1 i2 v2).1 (values.drop 1) := by
  rw [filterRows_eq]
  exact List.filter_sublist _

/-- Claim C7: every successful read with a non-empty `values` array writes
exactly one `output.json` document `{header, filtered_data, count}` with
`count` equal to the length of `filtered_data`; the resulting file content
does not depend on the previous content (`File::create` truncates —
overwrite, not append). -/
theorem c7_output_artifact (hd : Row) (tl : List Row) (i1 : Nat) (v1 : String)
    (i2 : Nat) (v2 : String) (prev : Option OutputDoc) :
    read_google_sheet (some (hd :: tl)) i1 v1 i2 v2 prev =
      ReadOutcome.ok (some hd)
        (some { header := hd,
                filtered_data := (filterRows (hd :: tl) i1 v1 i2 v2).1,
                count := (filterRows (hd :: tl) i1 v1 i2 v2).1.length }) := by
  simp [read_google_sheet, filterRows_eq]

/-- Claim C8: when the private key fails to parse (so signing produces no
JWT), `get_google_access_token` returns the key error propagated by `?` at
lines 36-40, and the POST to the token endpoint is never issued. -/
theorem c8_bad_key_before_network (client_email : String) (now : Nat)
    (net : NetResult) :
    (get_google_access_token client_email none now net).result =
      TokenResult.keyError ∧
    (get_google_access_token client_email none now net).networkCalled = false :=
  ⟨rfl, rfl⟩

/-- Claim C9: a response whose `values` field is present but an empty array
drives `&values[0]` (line 90) out of bounds — the read panics instead of
returning an empty table or an error; the guarded empty case is only the
missing `values` field, which yields success. -/
theorem c9_empty_values_panics (i1 : Nat) (v1 : String) (i2 : Nat)
    (v2 : String) (prev : Option OutputDoc) :
    read_google_sheet (some []) i1 v1 i2 v2 prev = ReadOutcome.panicked ∧
    read_google_sheet none i1 v1 i2 v2 prev = ReadOutcome.ok none prev :=
  ⟨rfl, rfl⟩

/-- Claim C10: on a response with no `values` field the read returns
success and the `output.json` state is whatever it was before the run —
the file write happens only in the `values`-present branch. -/
theorem c10_no_values_preserves_file (i1 : Nat) (v1 : String) (i2 : Nat)
    (v2 : String) (prev : Option OutputDoc) :
    read_google_sheet none i1 v1 i2 v2 prev = ReadOutcome.ok none prev := rfl

end RustGoogleSheet
